import Mathlib

/-!
Verification of the streaming response decoder and client entry points of
`ngpt` (`src/ngpt/client.py`), together with the corresponding decoder of
its companion `tOAI` (`src/tOAI/client.py`).

The Python code is shallowly embedded: JSON documents become an inductive
`Json`; `json.loads` becomes the executable fuel-based parser `Json.parse`
(following the Python `json` grammar: the four JSON whitespace characters,
`NaN`/`Infinity`/`-Infinity` accepted, strict strings rejecting raw control
characters, and a trailing-garbage check); the dynamic operations the code
performs on parsed values (`in`, `[...]`, `len`, `.get`, truthiness) become
total Lean functions returning `Except PyErr` mirroring the exceptions
CPython would raise (`TypeError`, `KeyError`, `AttributeError`,
`IndexError`).  `json.JSONDecodeError` is represented by `Json.parse`
returning `none`.
-/

/-- A parsed JSON document, as produced by Python's `json.loads`.
Numbers are kept as parsed literals `(neg, mant, exp10)` denoting
`(-1)^neg * mant * 10^exp10`, where `mant` already folds in the fraction
digits; none of the embedded code observes a numeric value beyond its
truthiness (`mant ≠ 0`), so this representation is exact for every
operation the program performs.  Python's non-standard `NaN`/`Infinity`
literals get their own constructors (both are truthy). -/
inductive Json where
  | null
  | bool (b : Bool)
  | num (neg : Bool) (mant : Nat) (exp10 : Int)
  | nan
  | inf (neg : Bool)
  | str (s : String)
  | arr (elems : List Json)
  | obj (fields : List (String × Json))

/-- Value of a key in a Python dict built from a JSON object: with duplicate
keys, the last occurrence wins (CPython overwrites on insert). -/
def lookupLast (fields : List (String × Json)) (key : String) : Option Json :=
  match fields with
  | [] => none
  | (k, v) :: rest =>
    match lookupLast rest key with
    | some w => some w
    | none => if k = key then some v else none

/-- Exceptions the embedded Python fragments can raise. -/
inductive PyErr where
  | typeError
  | keyError
  | attributeError
  | indexError

/-- The four characters Python's `json` module treats as whitespace. -/
def isJsonWs (c : Char) : Bool :=
  c = ' ' || c = '\t' || c = '\n' || c = '\r'

def skipWs : List Char → List Char
  | [] => []
  | c :: rest => if isJsonWs c then skipWs rest else c :: rest

/-- Decimal digit run: accumulates value and digit count onto `acc`/`cnt`. -/
def digitsAux : List Char → Nat → Nat → Nat × Nat × List Char
  | [], acc, cnt => (acc, cnt, [])
  | c :: rest, acc, cnt =>
    if '0' ≤ c ∧ c ≤ '9' then digitsAux rest (acc * 10 + (c.toNat - 48)) (cnt + 1)
    else (acc, cnt, c :: rest)

def hexVal (c : Char) : Option Nat :=
  if '0' ≤ c ∧ c ≤ '9' then some (c.toNat - 48)
  else if 'a' ≤ c ∧ c ≤ 'f' then some (c.toNat - 87)
  else if 'A' ≤ c ∧ c ≤ 'F' then some (c.toNat - 55)
  else none

def hex4 : List Char → Option (Nat × List Char)
  | a :: b :: c :: d :: r =>
    match hexVal a, hexVal b, hexVal c, hexVal d with
    | some x, some y, some z, some w => some (((x * 16 + y) * 16 + z) * 16 + w, r)
    | _, _, _, _ => none
  | _ => none

/-- Exponent suffix of a JSON number literal (after mantissa digits).
`mant` is the accumulated digits, `fcnt` the number of fraction digits. -/
def parseExpPart (neg : Bool) (mant : Nat) (fcnt : Nat) (s : List Char) :
    Option (Json × List Char) :=
  match s with
  | c :: r =>
    if c = 'e' ∨ c = 'E' then
      let (esign, r1) :=
        match r with
        | '+' :: rr => (false, rr)
        | '-' :: rr => (true, rr)
        | _ => (false, r)
      match r1 with
      | d :: rr =>
        if '0' ≤ d ∧ d ≤ '9' then
          let (ev, _, r2) := digitsAux rr (d.toNat - 48) 1
          some (.num neg mant ((if esign then -(ev : Int) else (ev : Int)) - (fcnt : Int)), r2)
        else none
      | [] => none
    else some (.num neg mant (-(fcnt : Int)), c :: r)
  | [] => some (.num neg mant (-(fcnt : Int)), [])

/-- Optional fraction part `.ddd` of a JSON number literal. -/
def parseFracPart (neg : Bool) (iv : Nat) (s : List Char) :
    Option (Json × List Char) :=
  match s with
  | '.' :: rest =>
    match rest with
    | c :: r =>
      if '0' ≤ c ∧ c ≤ '9' then
        let (m, cnt, r2) := digitsAux r (iv * 10 + (c.toNat - 48)) 1
        parseExpPart neg m cnt r2
      else none
    | [] => none
  | _ => parseExpPart neg iv 0 s

/-- JSON number literal after an optional leading minus sign
(already consumed, recorded in `neg`); leading zeros are rejected as in the
Python `json` grammar. -/
def parseNum (neg : Bool) (s : List Char) : Option (Json × List Char) :=
  match s with
  | '0' :: r => parseFracPart neg 0 r
  | c :: r =>
    if '1' ≤ c ∧ c ≤ '9' then
      let (iv, _, r2) := digitsAux r (c.toNat - 48) 1
      parseFracPart neg iv r2
    else none
  | [] => none

/-- Body of a JSON string literal (opening quote already consumed).  Follows
Python's strict mode: raw control characters below U+0020 are rejected.
Surrogate pairs written as two `\uXXXX` escapes are combined; a lone
surrogate (representable in a Python `str` but not in a Lean `String`)
becomes U+FFFD. -/
def parseStringAux (fuel : Nat) (s : List Char) (acc : List Char) :
    Option (String × List Char) :=
  match fuel with
  | 0 => none
  | fuel + 1 =>
    match s with
    | [] => none
    | '"' :: r => some (String.mk acc.reverse, r)
    | '\\' :: e :: r =>
      match e with
      | '"' => parseStringAux fuel r ('"' :: acc)
      | '\\' => parseStringAux fuel r ('\\' :: acc)
      | '/' => parseStringAux fuel r ('/' :: acc)
      | 'b' => parseStringAux fuel r ('\x08' :: acc)
      | 'f' => parseStringAux fuel r ('\x0c' :: acc)
      | 'n' => parseStringAux fuel r ('\n' :: acc)
      | 'r' => parseStringAux fuel r ('\x0d' :: acc)
      | 't' => parseStringAux fuel r ('\t' :: acc)
      | 'u' =>
        match hex4 r with
        | none => none
        | some (n, r2) =>
          if 0xD800 ≤ n ∧ n ≤ 0xDBFF then
            match r2 with
            | '\\' :: 'u' :: r3 =>
              match hex4 r3 with
              | some (n2, r4) =>
                if 0xDC00 ≤ n2 ∧ n2 ≤ 0xDFFF then
                  parseStringAux fuel r4
                    (Char.ofNat (0x10000 + (n - 0xD800) * 0x400 + (n2 - 0xDC00)) :: acc)
                else parseStringAux fuel ('\\' :: 'u' :: r3) ('�' :: acc)
              | none => parseStringAux fuel r2 ('�' :: acc)
            | _ => parseStringAux fuel r2 ('�' :: acc)
          else if 0xDC00 ≤ n ∧ n ≤ 0xDFFF then
            parseStringAux fuel r2 ('�' :: acc)
          else
            parseStringAux fuel r2 (Char.ofNat n :: acc)
      | _ => none
    | c :: r =>
      if c.toNat < 0x20 then none else parseStringAux fuel r (c :: acc)

mutual

/-- One JSON value, per the grammar accepted by Python's `json.loads`
(including the non-standard `NaN` / `Infinity` / `-Infinity` literals). -/
def parseValue (fuel : Nat) (s : List Char) : Option (Json × List Char) :=
  match fuel with
  | 0 => none
  | fuel + 1 =>
    match skipWs s with
    | [] => none
    | 'n' :: 'u' :: 'l' :: 'l' :: r => some (.null, r)
    | 't' :: 'r' :: 'u' :: 'e' :: r => some (.bool true, r)
    | 'f' :: 'a' :: 'l' :: 's' :: 'e' :: r => some (.bool false, r)
    | 'N' :: 'a' :: 'N' :: r => some (.nan, r)
    | 'I' :: 'n' :: 'f' :: 'i' :: 'n' :: 'i' :: 't' :: 'y' :: r => some (.inf false, r)
    | '-' :: 'I' :: 'n' :: 'f' :: 'i' :: 'n' :: 'i' :: 't' :: 'y' :: r => some (.inf true, r)
    | '"' :: r =>
      match parseStringAux fuel r [] with
      | some (t, r2) => some (.str t, r2)
      | none => none
    | '[' :: r =>
      match skipWs r with
      | ']' :: r2 => some (.arr [], r2)
      | _ => parseElems fuel r []
    | '\x7b' :: r =>
      match skipWs r with
      | '\x7d' :: r2 => some (.obj [], r2)
      | _ => parseMembers fuel r []
    | '-' :: r => parseNum true r
    | c :: r =>
      if '0' ≤ c ∧ c ≤ '9' then parseNum false (c :: r) else none

/-- Comma-separated elements of a non-empty JSON array. -/
def parseElems (fuel : Nat) (s : List Char) (acc : List Json) :
    Option (Json × List Char) :=
  match fuel with
  | 0 => none
  | fuel + 1 =>
    match parseValue fuel s with
    | none => none
    | some (v, r) =>
      match skipWs r with
      | ',' :: r2 => parseElems fuel r2 (v :: acc)
      | ']' :: r2 => some (.arr (v :: acc).reverse, r2)
      | _ => none

/-- Comma-separated members of a non-empty JSON object. -/
def parseMembers (fuel : Nat) (s : List Char) (acc : List (String × Json)) :
    Option (Json × List Char) :=
  match fuel with
  | 0 => none
  | fuel + 1 =>
    match skipWs s with
    | '"' :: r =>
      match parseStringAux fuel r [] with
      | none => none
      | some (k, r2) =>
        match skipWs r2 with
        | ':' :: r3 =>
          match parseValue fuel r3 with
          | none => none
          | some (v, r4) =>
            match skipWs r4 with
            | ',' :: r5 => parseMembers fuel r5 ((k, v) :: acc)
            | '\x7d' :: r5 => some (.obj ((k, v) :: acc).reverse, r5)
            | _ => none
        | _ => none
    | _ => none

end

/-- Model of `json.loads`: `none` is Python's `json.JSONDecodeError`.
Trailing non-whitespace input is an error ("Extra data"), as in Python.
The fuel bound is generous: every recursive step of the parser consumes at
least one input character per three fuel ticks. -/
def Json.parse (s : String) : Option Json :=
  match parseValue (3 * s.data.length + 3) s.data with
  | some (v, r) => if skipWs r = [] then some v else none
  | none => none

/-- Is `needle` a contiguous substring of `hay` (Python `x in someString`)? -/
def isSubstr (needle hay : List Char) : Bool :=
  needle.isPrefixOf hay ||
    match hay with
    | [] => false
    | _ :: t => isSubstr needle t

/-- Python `key in j` for a string `key`: dict key membership, list element
membership (string elements only can compare equal to a `str` key),
substring test for strings, `TypeError` for the remaining types. -/
def pyContains (key : String) (j : Json) : Except PyErr Bool :=
  match j with
  | .obj fields => .ok (lookupLast fields key).isSome
  | .arr xs => .ok (xs.any fun e => match e with | .str s => s = key | _ => false)
  | .str s => .ok (isSubstr key.data s.data)
  | _ => .error .typeError

/-- Python `j[key]` for a string `key`: dict lookup (`KeyError` if absent),
`TypeError` on strings/lists (indices must be integers) and on the scalar
types. -/
def pySubscript (j : Json) (key : String) : Except PyErr Json :=
  match j with
  | .obj fields =>
    match lookupLast fields key with
    | some v => .ok v
    | none => .error .keyError
  | _ => .error .typeError

/-- Python `len(j)`: length for strings/lists, number of distinct keys for
dicts, `TypeError` otherwise. -/
def pyLen (j : Json) : Except PyErr Nat :=
  match j with
  | .str s => .ok s.length
  | .arr xs => .ok xs.length
  | .obj fields => .ok ((fields.map Prod.fst).dedup).length
  | _ => .error .typeError

/-- Python `j[0]`: first list element (`IndexError` when empty), first
character of a string as a one-character string, `KeyError` on dicts (`0` is
never a key of a JSON-decoded dict), `TypeError` otherwise. -/
def pyIndexZero (j : Json) : Except PyErr Json :=
  match j with
  | .arr (x :: _) => .ok x
  | .arr [] => .error .indexError
  | .str s =>
    match s.data with
    | c :: _ => .ok (.str (String.mk [c]))
    | [] => .error .indexError
  | .obj _ => .error .keyError
  | _ => .error .typeError

/-- Python `j.get(key, default)`: only dicts have `.get`
(`AttributeError` otherwise). -/
def pyGet (j : Json) (key : String) (default : Json) : Except PyErr Json :=
  match j with
  | .obj fields => .ok ((lookupLast fields key).getD default)
  | _ => .error .attributeError

/-- Python truthiness of a JSON-decoded value (`bool(j)`); `NaN` and the
infinities are truthy floats. -/
def pyTruthy (j : Json) : Bool :=
  match j with
  | .null => false
  | .bool b => b
  | .num _ m _ => m ≠ 0
  | .nan => true
  | .inf _ => true
  | .str s => s ≠ ""
  | .arr xs => !xs.isEmpty
  | .obj fields => !fields.isEmpty

/-- Body of the per-frame extraction in the streaming branch of
`NGPTClient.chat` (`src/ngpt/client.py` lines 121-127):

    chunk = json.loads(line)            -- caller supplies the parsed chunk
    if "choices" in chunk and len(chunk["choices"]) > 0:
        delta = chunk["choices"][0].get("delta", {})
        content = delta.get("content", "")
        if content:
            ... collected_content += content

Result: `ok (some s)` when a fragment `s` is accumulated, `ok none` when the
frame contributes nothing, `error e` when one of the dynamic operations
raises (which is NOT caught by the `except json.JSONDecodeError` handler). -/
def processChunk (chunk : Json) : Except PyErr (Option String) :=
  match pyContains "choices" chunk with
  | .error e => .error e
  | .ok false => .ok none
  | .ok true =>
    match pySubscript chunk "choices" with
    | .error e => .error e
    | .ok choices =>
      match pyLen choices with
      | .error e => .error e
      | .ok n =>
        if n > 0 then
          match pyIndexZero choices with
          | .error e => .error e
          | .ok first =>
            match pyGet first "delta" (.obj []) with
            | .error e => .error e
            | .ok delta =>
              match pyGet delta "content" (.str "") with
              | .error e => .error e
              | .ok content =>
                if pyTruthy content then
                  match content with
                  | .str s => .ok (some s)
                  | _ => .error .typeError
                else .ok none
        else .ok none

/-- Python `line.startswith(pre)`. -/
def pyStartsWith (line pre : String) : Bool :=
  pre.data.isPrefixOf line.data

/-- Python `line[n:]`. -/
def pyDrop (line : String) (n : Nat) : String :=
  String.mk (line.data.drop n)

/-- What processing one line of the streaming response body does. -/
inductive LineAction where
  | skip
  | halt
  | emit (s : String)
  | error (e : PyErr)

def LineAction.isErr : LineAction → Bool
  | .error _ => true
  | _ => false

/-- One iteration of the streaming loop of `NGPTClient.chat`
(`src/ngpt/client.py` lines 107-129):

    if not line: continue
    line = line.decode('utf-8')
    if line.startswith('data: '):
        line = line[6:]
        if line == "[DONE]": break
        try:
            chunk = json.loads(line)
            ...                          -- processChunk
        except json.JSONDecodeError:
            pass

Lines that do not start with `"data: "` fall through the `if` and are
skipped. -/
def processLine (line : String) : LineAction :=
  if line = "" then .skip
  else if pyStartsWith line "data: " then
    let payload := pyDrop line 6
    if payload = "[DONE]" then .halt
    else
      match Json.parse payload with
      | none => .skip
      | some chunk =>
        match processChunk chunk with
        | .error e => .error e
        | .ok none => .skip
        | .ok (some s) => .emit s
  else .skip

/-- How the streaming loop finished. -/
inductive LoopState where
  | done (acc : String)
  | ended (acc : String)
  | failed (e : PyErr) (acc : String)

/-- The streaming loop of `NGPTClient.chat`, folding `collected_content`
over the response lines: `done` = broke out on `data: [DONE]`, `ended` =
input exhausted, `failed` = an exception escaped the per-line handler. -/
def streamLoop (lines : List String) (acc : String) : LoopState :=
  match lines with
  | [] => .ended acc
  | l :: ls =>
    match processLine l with
    | .skip => streamLoop ls acc
    | .halt => .done acc
    | .emit s => streamLoop ls (acc ++ s)
    | .error e => .failed e acc

/-- The string the streaming branch of `NGPTClient.chat` returns for a given
sequence of response lines: `collected_content` on normal completion
(`break` or end of input, lines 134-135), and `""` when an exception escaped
the loop and was caught by the outer `except Exception` handler
(lines 160-162). -/
def chatStream (lines : List String) : String :=
  match streamLoop lines "" with
  | .done acc => acc
  | .ended acc => acc
  | .failed _ _ => ""

/-- The fragments the streaming loop appends to `collected_content`, in
order (stopping at `data: [DONE]`, or at an escaping exception). -/
def emittedFragments : List String → List String
  | [] => []
  | l :: ls =>
    match processLine l with
    | .skip => emittedFragments ls
    | .halt => []
    | .emit s => s :: emittedFragments ls
    | .error _ => []

/-- Ordered concatenation of a list of fragments. -/
def strConcat : List String → String
  | [] => ""
  | s :: rest => s ++ strConcat rest

/-- The streaming loop with a `KeyboardInterrupt` arriving during line
iteration, just before the `n`-th unprocessed line (`src/ngpt/client.py`
lines 130-132): the `except KeyboardInterrupt` handler returns
`collected_content` as accumulated so far.  If the loop finishes (end of
input or `[DONE]`) before the interrupt fires, the normal return applies;
an exception escaping before the interrupt still yields `""` through the
outer handler. -/
def streamLoopInterrupted (lines : List String) (n : Nat) (acc : String) : String :=
  match n with
  | 0 => acc
  | n + 1 =>
    match lines with
    | [] => acc
    | l :: ls =>
      match processLine l with
      | .skip => streamLoopInterrupted ls n acc
      | .halt => acc
      | .emit s => streamLoopInterrupted ls n (acc ++ s)
      | .error _ => ""

/-- The string `NGPTClient.chat` returns when the user interrupts the
streaming loop after `n` lines have been processed. -/
def chatStreamInterrupted (lines : List String) (n : Nat) : String :=
  streamLoopInterrupted lines n ""

/-- `lines.filter keepLine` deletes exactly the empty lines and the lines
not starting with the literal `"data: "`. -/
def keepLine (l : String) : Bool :=
  !(decide (l = "")) && pyStartsWith l "data: "

/-- A well-formed streaming frame carrying delta content `c`: the document
is an object whose `"choices"` is a non-empty list, the first choice is an
object, its `"delta"` (when present) is an object, and that object's
`"content"` (when present) is the string `c`; the code's defaults make an
absent delta or content behave as `c = ""`. -/
def FrameWF (j : Json) (c : String) : Prop :=
  ∃ fs cfs dfs rest,
    j = .obj fs ∧
    lookupLast fs "choices" = some (.arr (Json.obj cfs :: rest)) ∧
    (lookupLast cfs "delta" = some (.obj dfs) ∨
      (lookupLast cfs "delta" = none ∧ dfs = [])) ∧
    (lookupLast dfs "content" = some (.str c) ∨
      (lookupLast dfs "content" = none ∧ c = ""))

/-- Content extraction of the non-streaming branch of `NGPTClient.chat`
(`src/ngpt/client.py` lines 94-96):

    if "choices" in result and len(result["choices"]) > 0:
        return result["choices"][0]["message"]["content"]
    return ""
-/
def extractContent (result : Json) : Except PyErr Json :=
  match pyContains "choices" result with
  | .error e => .error e
  | .ok false => .ok (.str "")
  | .ok true =>
    match pySubscript result "choices" with
    | .error e => .error e
    | .ok choices =>
      match pyLen choices with
      | .error e => .error e
      | .ok n =>
        if n > 0 then
          match pyIndexZero choices with
          | .error e => .error e
          | .ok first =>
            match pySubscript first "message" with
            | .error e => .error e
            | .ok msg => pySubscript msg "content"
        else .ok (.str "")

/-- What the non-streaming branch of `NGPTClient.chat` returns for a parsed
response document: the extracted content on success, `""` when the
extraction raised (caught by the outer `except Exception`, lines 160-162). -/
def chatNonStreaming (result : Json) : Json :=
  match extractContent result with
  | .ok v => v
  | .error _ => .str ""

/-- The canonical non-streaming response document
`\x7b"choices":[\x7b"message":\x7b"content": c\x7d\x7d]\x7d`. -/
def mkMsgDoc (c : String) : Json :=
  .obj [("choices", .arr [.obj [("message", .obj [("content", .str c)])]])]

/-- Transport-level failures of one HTTP request, as distinguished by the
`except` clauses of `NGPTClient.chat` / `NGPTClient.list_models`; `desc`
stands for Python's `str(e)` where the handler interpolates the exception. -/
inductive TransportError where
  | httpStatus (code : Nat) (desc : String)
  | connection (desc : String)
  | timeout (desc : String)
  | request (desc : String)
  | other (desc : String)

/-- Name of the exception class behind a `PyErr`, standing in for the text
CPython would interpolate into the catch-all handler's message. -/
def pyErrName : PyErr → String
  | .typeError => "TypeError"
  | .keyError => "KeyError"
  | .attributeError => "AttributeError"
  | .indexError => "IndexError"

/-- Error message printed by the handlers of `NGPTClient.chat`
(`src/ngpt/client.py` lines 137-158). -/
def errorMessage (url base_url : String) : TransportError → String
  | .httpStatus 401 _ => "Error: Authentication failed. Please check your API key."
  | .httpStatus 404 _ => "Error: Endpoint not found at " ++ url
  | .httpStatus 429 _ => "Error: Rate limit exceeded. Please try again later."
  | .httpStatus _ d => "HTTP Error: " ++ d
  | .connection _ =>
    "Error: Could not connect to " ++ base_url ++
      ". Please check your internet connection and base URL."
  | .timeout _ => "Error: Request timed out. Please try again later."
  | .request d => "Error: An error occurred while making the request: " ++ d
  | .other d => "Error: An unexpected error occurred: " ++ d

/-- Error message printed by the handlers of `NGPTClient.list_models`
(`src/ngpt/client.py` lines 319-336); that method has no dedicated
`Timeout`/`RequestException` clauses, so those fall to its catch-all. -/
def modelsErrorMessage (url base_url : String) : TransportError → String
  | .httpStatus 401 _ => "Error: Authentication failed. Please check your API key."
  | .httpStatus 404 _ => "Error: Models endpoint not found at " ++ url
  | .httpStatus 429 _ => "Error: Rate limit exceeded. Please try again later."
  | .httpStatus _ d => "HTTP Error: " ++ d
  | .connection _ =>
    "Error: Could not connect to " ++ base_url ++
      ". Please check your internet connection and base URL."
  | .timeout d => "Error: An unexpected error occurred while retrieving models: " ++ d
  | .request d => "Error: An unexpected error occurred while retrieving models: " ++ d
  | .other d => "Error: An unexpected error occurred while retrieving models: " ++ d

/-- Message printed by the missing-API-key guards (`src/ngpt/client.py`
lines 55, 187, 262, 302). -/
def apiKeyMissingMsg : String :=
  "Error: API key is not set. Please configure your API key in the config file or provide it with --api-key."

/-- The state of `NGPTClient` (`src/ngpt/client.py` lines 9-25) that the
verified methods read. -/
structure NGPTClient where
  api_key : String
  base_url : String
  model : String

/-- `NGPTClient.__init__`'s base-URL normalization (line 18). -/
def normalizeBaseUrl (u : String) : String :=
  if u.endsWith "/" then u else u ++ "/"

/-- `NGPTClient.chat` (`src/ngpt/client.py` lines 27-162) over a transport
oracle.  The oracle maps the message list of the request to the outcome of
the single `requests.post` the method performs; the result triple is
(returned value, error message printed by an `except` handler, number of
HTTP requests issued).  The empty-key guard (lines 54-56) returns before any
request; a transport error is mapped to its handler's message and `""`
(lines 137-162); otherwise the streaming or non-streaming branch runs on the
delivered body. -/
def NGPTClient.chatRun (c : NGPTClient) (prompt : String) (stream : Bool)
    (messages : Option (List (String × String)))
    (streamTransport : List (String × String) → Except TransportError (List String))
    (docTransport : List (String × String) → Except TransportError Json) :
    Json × String × Nat :=
  if c.api_key = "" then (.str "", apiKeyMissingMsg, 0)
  else
    let msgs := messages.getD [("user", prompt)]
    let url := c.base_url ++ "chat/completions"
    if stream then
      match streamTransport msgs with
      | .error e => (.str "", errorMessage url c.base_url e, 1)
      | .ok lines =>
        match streamLoop lines "" with
        | .done acc => (.str acc, "", 1)
        | .ended acc => (.str acc, "", 1)
        | .failed e _ => (.str "", "Error: An unexpected error occurred: " ++ pyErrName e, 1)
    else
      match docTransport msgs with
      | .error e => (.str "", errorMessage url c.base_url e, 1)
      | .ok doc =>
        match extractContent doc with
        | .ok v => (v, "", 1)
        | .error e => (.str "", "Error: An unexpected error occurred: " ++ pyErrName e, 1)

/-- System prompt built by `NGPTClient.generate_shell_command`
(`src/ngpt/client.py` lines 214-216). -/
def shellSystemPrompt (shell_name operating_system prompt : String) : String :=
  "Your role: Provide only plain text without Markdown formatting. Do not show any warnings or information regarding your capabilities. Do not provide any description. If you need to store any data, assume it will be stored in the chat. Provide only "
    ++ shell_name ++ " command for " ++ operating_system ++
    " without any description. If there is a lack of details, provide most logical solution. Ensure the output is a valid shell command. If multiple steps required try to combine them together. Prompt: "
    ++ prompt ++ "\n\nCommand:"

/-- System prompt built by `NGPTClient.generate_code`
(`src/ngpt/client.py` lines 265-273). -/
def codeSystemPrompt (language prompt : String) : String :=
  "Your Role: Provide only code as output without any description.\nIMPORTANT: Provide only plain text without Markdown formatting.\nIMPORTANT: Do not include markdown formatting.\nIf there is a lack of details, provide most logical solution. You are not allowed to ask for more details.\nIgnore any potential risk of errors or confusion.\n\nLanguage: "
    ++ language ++ "\nRequest: " ++ prompt ++ "\nCode:"

/-- `NGPTClient.generate_shell_command` (`src/ngpt/client.py` lines
164-235): empty-key guard, then a non-streaming `chat` call with the
constructed system/user messages.  `operating_system` and `shell_name` stand
for the values the method derives from the process environment. -/
def NGPTClient.generate_shell_command (c : NGPTClient)
    (operating_system shell_name prompt : String)
    (streamTransport : List (String × String) → Except TransportError (List String))
    (docTransport : List (String × String) → Except TransportError Json) :
    Json × String × Nat :=
  if c.api_key = "" then (.str "", apiKeyMissingMsg, 0)
  else
    let sys := shellSystemPrompt shell_name operating_system prompt
    c.chatRun prompt false (some [("system", sys), ("user", prompt)])
      streamTransport docTransport

/-- `NGPTClient.generate_code` (`src/ngpt/client.py` lines 237-292):
empty-key guard, then a non-streaming `chat` call. -/
def NGPTClient.generate_code (c : NGPTClient) (prompt language : String)
    (streamTransport : List (String × String) → Except TransportError (List String))
    (docTransport : List (String × String) → Except TransportError Json) :
    Json × String × Nat :=
  if c.api_key = "" then (.str "", apiKeyMissingMsg, 0)
  else
    let sys := codeSystemPrompt language prompt
    c.chatRun prompt false (some [("system", sys), ("user", prompt)])
      streamTransport docTransport

/-- `NGPTClient.list_models` (`src/ngpt/client.py` lines 294-336): empty-key
guard returning `[]` before any request, then one `requests.get`; on success
`result["data"]` when the key exists, otherwise `[]` with a format warning;
on failure `[]` with the handler's message. -/
def NGPTClient.list_models (c : NGPTClient)
    (response : Except TransportError Json) : Json × String × Nat :=
  if c.api_key = "" then (.arr [], apiKeyMissingMsg, 0)
  else
    let url := c.base_url ++ "models"
    match response with
    | .error e => (.arr [], modelsErrorMessage url c.base_url e, 1)
    | .ok result =>
      match pyContains "data" result with
      | .error e =>
        (.arr [], "Error: An unexpected error occurred while retrieving models: " ++ pyErrName e, 1)
      | .ok true =>
        match pySubscript result "data" with
        | .ok v => (v, "", 1)
        | .error e =>
          (.arr [], "Error: An unexpected error occurred while retrieving models: " ++ pyErrName e, 1)
      | .ok false => (.arr [], "Error: Unexpected response format when retrieving models.", 1)

namespace TOAI

/-- Per-frame extraction of the streaming branch of `TOAIClient.chat`
(`src/tOAI/client.py` lines 110-117), translated independently from that
file; the Python text is the same as ngpt's lines 120-127. -/
def processChunk (chunk : Json) : Except PyErr (Option String) :=
  match pyContains "choices" chunk with
  | .error e => .error e
  | .ok false => .ok none
  | .ok true =>
    match pySubscript chunk "choices" with
    | .error e => .error e
    | .ok choices =>
      match pyLen choices with
      | .error e => .error e
      | .ok n =>
        if n > 0 then
          match pyIndexZero choices with
          | .error e => .error e
          | .ok first =>
            match pyGet first "delta" (.obj []) with
            | .error e => .error e
            | .ok delta =>
              match pyGet delta "content" (.str "") with
              | .error e => .error e
              | .ok content =>
                if pyTruthy content then
                  match content with
                  | .str s => .ok (some s)
                  | _ => .error .typeError
                else .ok none
        else .ok none

/-- One iteration of the streaming loop of `TOAIClient.chat`
(`src/tOAI/client.py` lines 97-119). -/
def processLine (line : String) : LineAction :=
  if line = "" then .skip
  else if pyStartsWith line "data: " then
    let payload := pyDrop line 6
    if payload = "[DONE]" then .halt
    else
      match Json.parse payload with
      | none => .skip
      | some chunk =>
        match TOAI.processChunk chunk with
        | .error e => .error e
        | .ok none => .skip
        | .ok (some s) => .emit s
  else .skip

/-- The streaming loop of `TOAIClient.chat` folding `collected_content` over
the response lines (`src/tOAI/client.py` lines 97-119); unlike ngpt, an
escaping exception here propagates to the caller, which the `failed` state
records. -/
def streamLoop (lines : List String) (acc : String) : LoopState :=
  match lines with
  | [] => .ended acc
  | l :: ls =>
    match TOAI.processLine l with
    | .skip => TOAI.streamLoop ls acc
    | .halt => .done acc
    | .emit s => TOAI.streamLoop ls (acc ++ s)
    | .error e => .failed e acc

end TOAI

/-! ### Helper lemmas -/

theorem isPrefixOf_append_self (l r : List Char) : l.isPrefixOf (l ++ r) = true := by
  induction l with
  | nil => simp [List.isPrefixOf]
  | cons c t ih => simp [List.isPrefixOf, ih]

theorem dataLine_ne_empty (p : String) : "data: " ++ p ≠ "" := by
  intro h
  have h2 : ("data: ").data ++ p.data = ([] : List Char) := by
    rw [← String.data_append, h]
  exact absurd (List.append_eq_nil.mp h2).1 (by decide)

theorem pyStartsWith_dataLine (p : String) :
    pyStartsWith ("data: " ++ p) "data: " = true := by
  unfold pyStartsWith
  rw [String.data_append]
  exact isPrefixOf_append_self _ _

theorem pyDrop_dataLine (p : String) : pyDrop ("data: " ++ p) 6 = p := by
  unfold pyDrop
  rw [String.data_append]
  have h6 : ("data: ").data.length = 6 := rfl
  rw [← h6, List.drop_left]

theorem parse_DONE : Json.parse "[DONE]" = none := rfl

theorem processLine_DONE : processLine "data: [DONE]" = .halt := rfl

theorem processLine_dataLine (p : String) :
    processLine ("data: " ++ p) =
      (if p = "[DONE]" then .halt
       else
         match Json.parse p with
         | none => .skip
         | some chunk =>
           match processChunk chunk with
           | .error e => .error e
           | .ok none => .skip
           | .ok (some s) => .emit s) := by
  unfold processLine
  rw [if_neg (dataLine_ne_empty p), pyStartsWith_dataLine, pyDrop_dataLine]
  simp

theorem processLine_of_parse_some (p : String) (j : Json)
    (hd : p ≠ "[DONE]") (hp : Json.parse p = some j) :
    processLine ("data: " ++ p) =
      (match processChunk j with
       | .error e => .error e
       | .ok none => .skip
       | .ok (some s) => .emit s) := by
  rw [processLine_dataLine, if_neg hd, hp]

theorem processChunk_frameWF (j : Json) (c : String) (h : FrameWF j c) :
    processChunk j = .ok (if c = "" then none else some c) := by
  obtain ⟨fs, cfs, dfs, rest, hj, hch, hd, hc⟩ := h
  subst hj
  rcases hd with hd | ⟨hd, hdn⟩
  · rcases hc with hc | ⟨hc, hcn⟩
    · by_cases h0 : c = "" <;>
        simp [processChunk, pyContains, pySubscript, pyLen, pyIndexZero, pyGet,
          pyTruthy, hch, hd, hc, h0]
    · subst hcn
      simp [processChunk, pyContains, pySubscript, pyLen, pyIndexZero, pyGet,
        pyTruthy, hch, hd, hc]
  · subst hdn
    rcases hc with hc | ⟨hc, hcn⟩
    · simp [lookupLast] at hc
    · subst hcn
      simp [processChunk, pyContains, pySubscript, pyLen, pyIndexZero, pyGet,
        pyTruthy, hch, hd, hc]

theorem streamLoop_frames (pcs : List (String × String)) (acc : String)
    (h : ∀ pc ∈ pcs, ∃ j, Json.parse pc.1 = some j ∧ FrameWF j pc.2) :
    streamLoop ((pcs.map fun pc => "data: " ++ pc.1) ++ ["data: [DONE]"]) acc =
      .done (acc ++ strConcat (pcs.map Prod.snd)) := by
  induction pcs generalizing acc with
  | nil => simp [streamLoop, processLine_DONE, strConcat, String.append_empty]
  | cons pc rest ih =>
    obtain ⟨j, hp, hwf⟩ := h pc (by simp)
    have hne : pc.1 ≠ "[DONE]" := by
      intro he; rw [he, parse_DONE] at hp; exact Option.noConfusion hp
    have hline := processLine_of_parse_some pc.1 j hne hp
    rw [processChunk_frameWF j pc.2 hwf] at hline
    have hrest : ∀ x ∈ rest, ∃ j, Json.parse x.1 = some j ∧ FrameWF j x.2 :=
      fun x hx => h x (by simp [hx])
    by_cases h0 : pc.2 = "" <;> simp [h0] at hline <;>
      simp [streamLoop, hline, strConcat, h0, ih _ hrest,
        String.empty_append, String.append_assoc]

theorem streamLoop_done_irrel (pre post : List String) (acc : String) :
    streamLoop (pre ++ "data: [DONE]" :: post) acc =
      streamLoop (pre ++ ["data: [DONE]"]) acc := by
  induction pre generalizing acc with
  | nil => simp [streamLoop, processLine_DONE]
  | cons l ls ih =>
    simp only [List.cons_append, streamLoop]
    cases hl : processLine l <;> simp [ih]

theorem streamLoop_skip_mid (pre post : List String) (l : String) (acc : String)
    (hl : processLine l = .skip) :
    streamLoop (pre ++ l :: post) acc = streamLoop (pre ++ post) acc := by
  induction pre generalizing acc with
  | nil => simp [streamLoop, hl]
  | cons x xs ih =>
    simp only [List.cons_append, streamLoop]
    cases hx : processLine x <;> simp [ih]

theorem streamLoop_clean (lines : List String) (acc : String)
    (h : ∀ l ∈ lines, (processLine l).isErr = false) :
    streamLoop lines acc = .done (acc ++ strConcat (emittedFragments lines)) ∨
    streamLoop lines acc = .ended (acc ++ strConcat (emittedFragments lines)) := by
  induction lines generalizing acc with
  | nil => right; simp [streamLoop, emittedFragments, strConcat, String.append_empty]
  | cons l ls ih =>
    have hl0 := h l (by simp)
    have hrest : ∀ x ∈ ls, (processLine x).isErr = false :=
      fun x hx => h x (by simp [hx])
    cases hl : processLine l with
    | skip =>
      rcases ih acc hrest with h1 | h1
      · left; simp [streamLoop, hl, emittedFragments, h1]
      · right; simp [streamLoop, hl, emittedFragments, h1]
    | halt =>
      left; simp [streamLoop, hl, emittedFragments, strConcat, String.append_empty]
    | emit s =>
      rcases ih (acc ++ s) hrest with h1 | h1
      · left
        simp [streamLoop, hl, emittedFragments, h1, strConcat, String.append_assoc]
      · right
        simp [streamLoop, hl, emittedFragments, h1, strConcat, String.append_assoc]
    | error e => rw [hl] at hl0; exact absurd hl0 (by simp [LineAction.isErr])

/-! ### Claim theorems -/

/-- C1: for every finite sequence of `data: ` frames whose payloads parse to
well-formed chunks carrying delta contents `cs`, followed by
`data: [DONE]`, the streaming branch of `NGPTClient.chat` returns exactly
the concatenation of those contents in arrival order — nothing reordered,
duplicated or dropped. -/
theorem c1_stream_concatenation (pcs : List (String × String))
    (h : ∀ pc ∈ pcs, ∃ j, Json.parse pc.1 = some j ∧ FrameWF j pc.2) :
    chatStream ((pcs.map fun pc => "data: " ++ pc.1) ++ ["data: [DONE]"]) =
      strConcat (pcs.map Prod.snd) := by
  unfold chatStream
  rw [streamLoop_frames pcs "" h, String.empty_append]

/-- Witness for C1: the spec's own example, two frames carrying `"Hel"` and
`"lo"` followed by the sentinel assemble to `"Hello"`. -/
theorem c1_stream_concatenation_witness :
    chatStream
      ["data: \x7b\"choices\":[\x7b\"delta\":\x7b\"content\":\"Hel\"\x7d\x7d]\x7d",
       "data: \x7b\"choices\":[\x7b\"delta\":\x7b\"content\":\"lo\"\x7d\x7d]\x7d",
       "data: [DONE]"] = "Hello" := by
  have h := c1_stream_concatenation
    [("\x7b\"choices\":[\x7b\"delta\":\x7b\"content\":\"Hel\"\x7d\x7d]\x7d", "Hel"),
     ("\x7b\"choices\":[\x7b\"delta\":\x7b\"content\":\"lo\"\x7d\x7d]\x7d", "lo")]
    (by
      intro pc hpc
      simp only [List.mem_cons, List.not_mem_nil, or_false] at hpc
      rcases hpc with hpc | hpc
      · exact hpc ▸
          ⟨Json.obj [("choices", Json.arr [Json.obj [("delta",
              Json.obj [("content", Json.str "Hel")])]])], rfl,
            [("choices", Json.arr [Json.obj [("delta",
              Json.obj [("content", Json.str "Hel")])]])],
            [("delta", Json.obj [("content", Json.str "Hel")])],
            [("content", Json.str "Hel")], [], rfl, rfl, Or.inl rfl, Or.inl rfl⟩
      · exact hpc ▸
          ⟨Json.obj [("choices", Json.arr [Json.obj [("delta",
              Json.obj [("content", Json.str "lo")])]])], rfl,
            [("choices", Json.arr [Json.obj [("delta",
              Json.obj [("content", Json.str "lo")])]])],
            [("delta", Json.obj [("content", Json.str "lo")])],
            [("content", Json.str "lo")], [], rfl, rfl, Or.inl rfl, Or.inl rfl⟩)
  exact h

/-- C2: a `data: [DONE]` line halts the streaming loop of `NGPTClient.chat`:
whatever follows it in the input, the returned string is the one computed
from the lines up to and including that sentinel — no later line is
processed and no fragment from any later line appears. -/
theorem c2_done_halts (pre post : List String) :
    chatStream (pre ++ "data: [DONE]" :: post) =
      chatStream (pre ++ ["data: [DONE]"]) := by
  unfold chatStream
  rw [streamLoop_done_irrel]

/-- C3: a `data: `-prefixed line whose payload fails JSON parsing is
silently skipped by `NGPTClient.chat`: the assembled result equals the one
for the input with that line deleted, so frames before and after it are
unaffected and no error is surfaced. -/
theorem c3_malformed_skipped (pre post : List String) (p : String)
    (hp : Json.parse p = none) (hd : p ≠ "[DONE]") :
    chatStream (pre ++ ("data: " ++ p) :: post) = chatStream (pre ++ post) := by
  have hl : processLine ("data: " ++ p) = .skip := by
    rw [processLine_dataLine, if_neg hd, hp]
  unfold chatStream
  rw [streamLoop_skip_mid pre post _ "" hl]

/-- Witness for C3: the spec's own example, a malformed `data: \x7bnot json`
line between valid frames `"A"` and `"B"` leaves the result equal to the
run without it (both assemble `"AB"`). -/
theorem c3_malformed_skipped_witness :
    chatStream
      ["data: \x7b\"choices\":[\x7b\"delta\":\x7b\"content\":\"A\"\x7d\x7d]\x7d",
       "data: \x7bnot json",
       "data: \x7b\"choices\":[\x7b\"delta\":\x7b\"content\":\"B\"\x7d\x7d]\x7d"] =
    chatStream
      ["data: \x7b\"choices\":[\x7b\"delta\":\x7b\"content\":\"A\"\x7d\x7d]\x7d",
       "data: \x7b\"choices\":[\x7b\"delta\":\x7b\"content\":\"B\"\x7d\x7d]\x7d"] :=
  c3_malformed_skipped
    ["data: \x7b\"choices\":[\x7b\"delta\":\x7b\"content\":\"A\"\x7d\x7d]\x7d"]
    ["data: \x7b\"choices\":[\x7b\"delta\":\x7b\"content\":\"B\"\x7d\x7d]\x7d"]
    "\x7bnot json" rfl (by decide)

/-- C4 fails as stated: a payload that parses as JSON but is not a
dict/list (here the bare number `42`) makes `"choices" in chunk` raise
`TypeError`, which the `except json.JSONDecodeError` handler does not
catch; the outer `except Exception` then returns `""`, losing the fragment
`"A"` already accumulated from the preceding well-formed frame. -/
theorem c4_decoder_counterexample :
    chatStream
      ["data: \x7b\"choices\":[\x7b\"delta\":\x7b\"content\":\"A\"\x7d\x7d]\x7d",
       "data: 42"] = "" ∧
    chatStream
      ["data: \x7b\"choices\":[\x7b\"delta\":\x7b\"content\":\"A\"\x7d\x7d]\x7d"] = "A" :=
  ⟨rfl, rfl⟩

/-- C4 (amended): the streaming branch never propagates an exception to the
caller, but only inputs whose lines raise no dynamic type error are
loss-free; for those, the result is exactly the concatenation of the
emitted fragments.  A JSON-parsable but ill-shaped payload instead aborts
the stream through the outer `except Exception` handler and the call
returns `""`, discarding the fragments accumulated so far. -/
theorem c4_no_error_means_no_loss (lines : List String)
    (h : ∀ l ∈ lines, (processLine l).isErr = false) :
    chatStream lines = strConcat (emittedFragments lines) := by
  unfold chatStream
  rcases streamLoop_clean lines "" h with h1 | h1 <;>
    rw [h1] <;> simp [String.empty_append]

/-- Witness for the amended C4: an input mixing a malformed line, a
non-`data: ` line and two well-formed frames raises nothing line-wise, and
assembles exactly its emitted fragments. -/
theorem c4_no_error_means_no_loss_witness :
    chatStream
      ["data: \x7bnot json", ": keep-alive", "",
       "data: \x7b\"choices\":[\x7b\"delta\":\x7b\"content\":\"A\"\x7d\x7d]\x7d",
       "data: \x7b\"choices\":[\x7b\"delta\":\x7b\"content\":\"B\"\x7d\x7d]\x7d"] =
      strConcat (emittedFragments
        ["data: \x7bnot json", ": keep-alive", "",
         "data: \x7b\"choices\":[\x7b\"delta\":\x7b\"content\":\"A\"\x7d\x7d]\x7d",
         "data: \x7b\"choices\":[\x7b\"delta\":\x7b\"content\":\"B\"\x7d\x7d]\x7d"]) :=
  c4_no_error_means_no_loss _ (by decide)

/-- C5: in non-streaming mode, the canonical document
`\x7b"choices":[\x7b"message":\x7b"content": c\x7d\x7d]\x7d` yields `c`, and a document
object with the `"choices"` key absent, or mapped to the empty list,
yields the empty string rather than an error. -/
theorem c5_nonstreaming_extraction (c : String)
    (fs1 fs2 : List (String × Json))
    (h1 : lookupLast fs1 "choices" = none)
    (h2 : lookupLast fs2 "choices" = some (.arr [])) :
    chatNonStreaming (mkMsgDoc c) = .str c ∧
    chatNonStreaming (.obj fs1) = .str "" ∧
    chatNonStreaming (.obj fs2) = .str "" := by
  refine ⟨rfl, ?_, ?_⟩
  · simp [chatNonStreaming, extractContent, pyContains, h1]
  · simp [chatNonStreaming, extractContent, pyContains, pySubscript, pyLen, h2]

/-- Witness for C5: the spec's example document yields `"X"`; the empty
object and `\x7b"choices": []\x7d` yield `""`. -/
theorem c5_nonstreaming_extraction_witness :
    chatNonStreaming (mkMsgDoc "X") = .str "X" ∧
    chatNonStreaming (.obj []) = .str "" ∧
    chatNonStreaming (.obj [("choices", .arr [])]) = .str "" :=
  c5_nonstreaming_extraction "X" [] [("choices", .arr [])] rfl rfl

theorem streamLoop_filterKeep (lines : List String) (acc : String) :
    streamLoop (lines.filter keepLine) acc = streamLoop lines acc := by
  induction lines generalizing acc with
  | nil => rfl
  | cons l ls ih =>
    by_cases hk : keepLine l = true
    · rw [List.filter_cons_of_pos hk]
      simp only [streamLoop]
      cases hl : processLine l <;> simp [ih]
    · have hskip : processLine l = .skip := by
        by_cases hz : l = ""
        · simp [processLine, hz]
        · cases hb : pyStartsWith l "data: " with
          | true => exact absurd (by simp [keepLine, hz, hb]) hk
          | false => simp [processLine, hz, hb]
      rw [List.filter_cons_of_neg (by simpa using hk)]
      simp [streamLoop, hskip, ih]

/-- C6: empty lines and lines not starting with the literal `"data: "`
contribute nothing: deleting all of them (keeping exactly the non-empty
`data: `-prefixed lines) leaves the string returned by `NGPTClient.chat`
unchanged. -/
theorem c6_irrelevant_lines_ignored (lines : List String) :
    chatStream (lines.filter keepLine) = chatStream lines := by
  unfold chatStream
  rw [streamLoop_filterKeep]

theorem streamLoopInterrupted_clean (lines : List String) (n : Nat) (acc : String)
    (h : ∀ l ∈ lines.take n, (processLine l).isErr = false) :
    streamLoopInterrupted lines n acc =
      acc ++ strConcat (emittedFragments (lines.take n)) := by
  induction lines generalizing n acc with
  | nil =>
    cases n <;>
      simp [streamLoopInterrupted, emittedFragments, strConcat, String.append_empty]
  | cons l ls ih =>
    cases n with
    | zero => simp [streamLoopInterrupted, strConcat, String.append_empty]
    | succ m =>
      have hl0 := h l (by simp [List.take_succ_cons])
      have hrest : ∀ x ∈ ls.take m, (processLine x).isErr = false :=
        fun x hx => h x (by simp [List.take_succ_cons, hx])
      cases hl : processLine l with
      | skip =>
        simp [streamLoopInterrupted, hl, List.take_succ_cons, emittedFragments,
          ih m acc hrest]
      | halt =>
        simp [streamLoopInterrupted, hl, List.take_succ_cons, emittedFragments,
          strConcat, String.append_empty]
      | emit s =>
        simp [streamLoopInterrupted, hl, List.take_succ_cons, emittedFragments,
          ih m (acc ++ s) hrest, strConcat, String.append_assoc]
      | error e => rw [hl] at hl0; exact absurd hl0 (by simp [LineAction.isErr])

/-- C7: if a `KeyboardInterrupt` arrives during line iteration after the
first `n` lines have been processed (none of them raising), the
`except KeyboardInterrupt` handler makes `NGPTClient.chat` return the
concatenation of exactly the fragments emitted so far — the partial result
is kept, not discarded, and no error is raised. -/
theorem c7_interrupt_keeps_accumulated (lines : List String) (n : Nat)
    (h : ∀ l ∈ lines.take n, (processLine l).isErr = false) :
    chatStreamInterrupted lines n =
      strConcat (emittedFragments (lines.take n)) := by
  unfold chatStreamInterrupted
  rw [streamLoopInterrupted_clean lines n "" h, String.empty_append]

/-- Witness for C7: interrupting after one of two frames has been processed
returns that frame's fragment `"Hel"` alone. -/
theorem c7_interrupt_keeps_accumulated_witness :
    chatStreamInterrupted
      ["data: \x7b\"choices\":[\x7b\"delta\":\x7b\"content\":\"Hel\"\x7d\x7d]\x7d",
       "data: \x7b\"choices\":[\x7b\"delta\":\x7b\"content\":\"lo\"\x7d\x7d]\x7d"] 1 =
      "Hel" :=
  (c7_interrupt_keeps_accumulated _ 1 (by decide)).trans rfl

theorem string_append_ne_empty (a b : String) (h : a ≠ "") : a ++ b ≠ "" := by
  intro hc
  apply h
  have h2 : a.data ++ b.data = ([] : List Char) := by
    rw [← String.data_append, hc]
  have h3 := (List.append_eq_nil.mp h2).1
  cases a with
  | mk d =>
    simp only [String.data] at h3
    subst h3
    rfl

theorem errorMessage_ne_empty (url base_url : String) (e : TransportError) :
    errorMessage url base_url e ≠ "" := by
  unfold errorMessage
  split <;>
    first
      | decide
      | exact string_append_ne_empty _ _ (by decide)
      | exact string_append_ne_empty _ _ (string_append_ne_empty _ _ (by decide))

/-- C8: for every transport-level failure of `NGPTClient.chat` — an HTTP
status error (401, 404, 429 or any other), a connection failure, a timeout
or any other request exception — the call returns the empty result together
with the non-empty human-readable message of the matching handler, and
issues exactly one HTTP request (no automatic retry). -/
theorem c8_transport_errors (c : NGPTClient) (prompt : String)
    (mo : Option (List (String × String)))
    (st : List (String × String) → Except TransportError (List String))
    (dt : List (String × String) → Except TransportError Json)
    (e : TransportError) (hk : c.api_key ≠ "")
    (hs : ∀ m, st m = .error e) (hd : ∀ m, dt m = .error e) :
    c.chatRun prompt true mo st dt =
      (.str "", errorMessage (c.base_url ++ "chat/completions") c.base_url e, 1) ∧
    c.chatRun prompt false mo st dt =
      (.str "", errorMessage (c.base_url ++ "chat/completions") c.base_url e, 1) ∧
    errorMessage (c.base_url ++ "chat/completions") c.base_url e ≠ "" := by
  refine ⟨?_, ?_, errorMessage_ne_empty _ _ e⟩ <;>
    simp [NGPTClient.chatRun, hk, hs, hd]

/-- Witness for C8: a client with a key hitting a timeout on every attempt
gets `""` plus the timeout message from one single request, in both
streaming and non-streaming mode. -/
theorem c8_transport_errors_witness :
    (NGPTClient.mk "key" "https://api.openai.com/v1/" "gpt-3.5-turbo").chatRun
        "hi" true none (fun _ => .error (.timeout "t")) (fun _ => .error (.timeout "t")) =
      (.str "", "Error: Request timed out. Please try again later.", 1) ∧
    (NGPTClient.mk "key" "https://api.openai.com/v1/" "gpt-3.5-turbo").chatRun
        "hi" false none (fun _ => .error (.timeout "t")) (fun _ => .error (.timeout "t")) =
      (.str "", "Error: Request timed out. Please try again later.", 1) := by
  have h := c8_transport_errors
    (NGPTClient.mk "key" "https://api.openai.com/v1/" "gpt-3.5-turbo") "hi" none
    (fun _ => .error (.timeout "t")) (fun _ => .error (.timeout "t"))
    (.timeout "t") (by decide) (fun _ => rfl) (fun _ => rfl)
  exact ⟨h.1, h.2.1⟩

/-- C9: with an empty `api_key`, `chat`, `generate_shell_command` and
`generate_code` return the empty string and `list_models` returns the empty
list, each after issuing zero HTTP requests, whatever the transport would
have answered. -/
theorem c9_empty_api_key_guards (c : NGPTClient) (hk : c.api_key = "")
    (prompt operating_system shell_name language : String) (stream : Bool)
    (mo : Option (List (String × String)))
    (st st2 st3 : List (String × String) → Except TransportError (List String))
    (dt dt2 dt3 : List (String × String) → Except TransportError Json)
    (mresp : Except TransportError Json) :
    c.chatRun prompt stream mo st dt = (.str "", apiKeyMissingMsg, 0) ∧
    c.generate_shell_command operating_system shell_name prompt st2 dt2 =
      (.str "", apiKeyMissingMsg, 0) ∧
    c.generate_code prompt language st3 dt3 = (.str "", apiKeyMissingMsg, 0) ∧
    c.list_models mresp = (.arr [], apiKeyMissingMsg, 0) := by
  refine ⟨?_, ?_, ?_, ?_⟩ <;>
    simp [NGPTClient.chatRun, NGPTClient.generate_shell_command,
      NGPTClient.generate_code, NGPTClient.list_models, hk]

/-- Witness for C9: a concrete keyless client returns the empty results with
zero requests from all four methods. -/
theorem c9_empty_api_key_guards_witness :
    (NGPTClient.mk "" "u/" "m").chatRun "p" true none
        (fun _ => .ok []) (fun _ => .ok .null) = (.str "", apiKeyMissingMsg, 0) ∧
    (NGPTClient.mk "" "u/" "m").generate_shell_command "Linux" "bash" "p"
        (fun _ => .ok []) (fun _ => .ok .null) = (.str "", apiKeyMissingMsg, 0) ∧
    (NGPTClient.mk "" "u/" "m").generate_code "p" "python"
        (fun _ => .ok []) (fun _ => .ok .null) = (.str "", apiKeyMissingMsg, 0) ∧
    (NGPTClient.mk "" "u/" "m").list_models (.ok .null) =
      (.arr [], apiKeyMissingMsg, 0) :=
  c9_empty_api_key_guards (NGPTClient.mk "" "u/" "m") rfl "p" "Linux" "bash"
    "python" true none (fun _ => .ok []) (fun _ => .ok []) (fun _ => .ok [])
    (fun _ => .ok .null) (fun _ => .ok .null) (fun _ => .ok .null) (.ok .null)

/-- C10: on every sequence of response lines and every accumulator, the
per-line streaming decoding loop embedded from `TOAIClient.chat` computes
exactly the same state as the one embedded from `NGPTClient.chat`: the two
decoders are extensionally equal, so they assemble the same string. -/
theorem c10_toai_ngpt_decoder_equal (lines : List String) (acc : String) :
    TOAI.streamLoop lines acc = streamLoop lines acc := by
  have hpl : ∀ l, TOAI.processLine l = processLine l := fun l => rfl
  induction lines generalizing acc with
  | nil => rfl
  | cons l ls ih =>
    simp only [TOAI.streamLoop, streamLoop, hpl]
    cases processLine l <;> simp [ih]
